import Mathlib

/-!
Shallow embedding of the `open-cmd-rs` crate.

The crate has two pieces:

* `src/path_or_uri.rs` — the `PathOrURI` sum type (a local path or a remote
  URI), its constructors (`FromStr`, `From<PathBuf>`, `From<Url>` with the
  file-scheme collapse), the `uri()` conversion and `Display`.
* `src/lib.rs` plus the three platform modules (`linux.rs`, `macos.rs`,
  `windows.rs`) — the command-resolution functions `ensure_command`,
  `open_with_command`, `open_env`, `open`, `open_browser`, `open_editor` and
  the per-platform `open` adapters.

External collaborators are modelled explicitly:

* the `url` crate's `Url` is modelled as a scheme plus the remainder of the
  serialization after `"://"`; the model parser accepts exactly the
  authority-form `scheme://rest` URLs (the WHATWG parser also accepts
  non-authority forms such as `mailto:`, which no claim here depends on), and
  like the real parser it rejects any string without a valid scheme prefix
  (`RelativeUrlWithoutBase`), in particular the empty string and ordinary
  Unix paths. `Url::from_file_path` percent-encodes the path (ASCII model);
  `Url::path()` returns the percent-encoded path component verbatim.
* `std::path` is modelled for Unix-style `/`-separated string paths:
  `Path::components`, `PathBuf::join`, and the `path_clean` crate's lexical
  `clean` (Plan-9 style: drop `.`, pop a normal component on `..`, keep `..`
  at the front of a relative path, never pop past root).
* the ambient process state (environment variables, the executable search
  path probed by `which::which`, and `std::env::current_dir`) is an explicit
  `Env` record threaded through the resolver functions; `cwd` is an
  `Except`-value so a failing working-directory read is representable.
  `std::env::var` errors both when the variable is unset and when it is not
  Unicode; both are collapsed into `none` here, while any set Unicode value
  (including the empty string) is `some`.
* `std::process::Command` built by the crate is observed only through its
  program and argument list, modelled by the pure descriptor `Cmd`.
* the compile-time `#[cfg(target_os = ...)]` selection of `sys_open` is
  modelled by a `Platform` index.

Machine integers do not occur on any modelled path.  `io::Error` and
`which::Error` payloads are opaque to the crate's logic; the former is
modelled as a `Nat` tag, the latter is dropped (the code only stores it).
The Rust constructor `Error::IO` is rendered `Error.ioErr` because Lean
reserves the name `IO`.
-/

namespace OpenCmd

/-- Model of `url::Url`: the scheme and everything after the `"://"` of the
serialization (authority, path, query, fragment). -/
structure Url where
  scheme : String
  hostPath : String
deriving DecidableEq

/-- Serialization of a `Url`, as produced by the url crate's `Display`. -/
def Url.toString (u : Url) : String := u.scheme ++ "://" ++ u.hostPath

/-- The percent-encoded path component: the suffix of `hostPath` from the
first `/` (empty when there is none), as returned by `Url::path()`. -/
def Url.path (u : Url) : String := ⟨u.hostPath.data.dropWhile (fun c => c != '/')⟩

/-- True for characters other than `:` (scheme delimiter). -/
def notColon (c : Char) : Bool := c != ':'

/-- Characters allowed after the first character of a URI scheme. -/
def schemeChar (c : Char) : Bool := c.isAlphanum || c == '+' || c == '-' || c == '.'

/-- A syntactically valid URI scheme: one ASCII letter then scheme characters. -/
def validScheme : List Char → Bool
  | [] => false
  | c :: rest => c.isAlpha && rest.all schemeChar

/-- Model of the url crate's parser on character lists: a valid scheme,
`"://"`, then the rest taken verbatim; anything else is a parse error. -/
def parseUrlChars (l : List Char) : Option Url :=
  match l.dropWhile notColon with
  | ':' :: '/' :: '/' :: tail =>
      if validScheme (l.takeWhile notColon) then
        some ⟨⟨(l.takeWhile notColon).map Char.toLower⟩, ⟨tail⟩⟩
      else none
  | _ => none

/-- Model of `str::parse::<Url>()`. -/
def parseUrl (s : String) : Option Url := parseUrlChars s.data

/-- A `Url` in the parser's image: valid scheme, already lowercase.  Every
value produced by the real parser satisfies this (the url crate lowercases
and validates the scheme on parse). -/
def Url.wf (u : Url) : Prop :=
  validScheme u.scheme.data = true ∧ u.scheme.data.map Char.toLower = u.scheme.data

instance (u : Url) : Decidable u.wf := by
  unfold Url.wf; infer_instance

/-- Hex digit (uppercase) of a value below 16. -/
def hexDigit (n : Nat) : Char :=
  if n < 10 then Char.ofNat (48 + n) else Char.ofNat (55 + n)

/-- Whether `Url::from_file_path` percent-encodes this (ASCII) character:
controls, space, `"`, `#`, `%`, `<`, `>`, `?`, backslash, backquote, the
two curly brackets, and everything from DEL up. -/
def shouldEncode (c : Char) : Bool :=
  let n := c.toNat
  n < 0x20 || n == 0x20 || n == 0x22 || n == 0x23 || n == 0x25 || n == 0x3c ||
    n == 0x3e || n == 0x3f || n == 0x5c || n == 0x60 || n == 0x7b ||
    n == 0x7d || n ≥ 0x7f

/-- Percent-encode one character (ASCII model; the url crate encodes each
byte of the UTF-8 form, which agrees on ASCII). -/
def encodeChar (c : Char) : List Char :=
  if shouldEncode c then ['%', hexDigit (c.toNat / 16), hexDigit (c.toNat % 16)] else [c]

/-- Percent-encode a path for use in a `file:` URL; `/` is kept. -/
def encodePath (s : String) : String := ⟨(s.data.map encodeChar).flatten⟩

/-- Split a character list at every `/`, keeping empty segments, as
`String.splitOn "/"` does. -/
def splitSlashAux : List Char → List Char → List String
  | [], acc => [⟨acc.reverse⟩]
  | c :: rest, acc =>
    if c = '/' then ⟨acc.reverse⟩ :: splitSlashAux rest []
    else splitSlashAux rest (c :: acc)

/-- Split a string at every `/`. -/
def splitSlash (s : String) : List String := splitSlashAux s.data []

/-- Whether the (Unix model) path is absolute. -/
def startsWithSlash (s : String) : Bool :=
  match s.data with
  | [] => false
  | c :: _ => c = '/'

/-- Whether the path already ends in a separator (`PathBuf::push` then adds
none). -/
def endsWithSlash (s : String) : Bool :=
  match s.data.getLast? with
  | some c => c = '/'
  | none => false

/-- A component of a Unix path, as in `std::path::Component`. -/
inductive Comp where
  | root
  | cur
  | parent
  | normal (s : String)
deriving DecidableEq

/-- Classify one non-empty, non-`.` path segment. -/
def toComp (s : String) : Comp := if s = ".." then .parent else .normal s

/-- Model of `Path::components` for Unix string paths: a leading `/` is the
root, empty segments and `.` are dropped, except that a leading `.` of a
relative path is kept as `CurDir`. -/
def pathComponents (s : String) : List Comp :=
  let parts := splitSlash s
  let keep := (parts.filter (fun p => p ≠ "" && p ≠ ".")).map toComp
  if startsWithSlash s then
    Comp.root :: keep
  else
    match parts with
    | "." :: _ => Comp.cur :: keep
    | _ => keep

/-- One step of the `path_clean` algorithm: skip `.`; on `..` do nothing at
root, pop a normal component, and otherwise keep the `..`; push the rest. -/
def cleanStep (out : List Comp) (c : Comp) : List Comp :=
  match c with
  | .cur => out
  | .parent =>
      match out.getLast? with
      | some .root => out
      | some (.normal _) => out.dropLast
      | _ => out ++ [Comp.parent]
  | c => out ++ [c]

/-- Rendering of one component, as `PathBuf::push` sees it. -/
def compStr : Comp → String
  | .root => "/"
  | .cur => "."
  | .parent => ".."
  | .normal s => s

/-- Collect components back into a path string; an empty list renders as `.`
(the `path_clean` convention). -/
def renderComps : List Comp → String
  | [] => "."
  | .root :: rest => "/" ++ String.intercalate "/" (rest.map compStr)
  | l => String.intercalate "/" (l.map compStr)

/-- Model of `path_clean::clean`: purely lexical cleaning. -/
def cleanPath (s : String) : String :=
  renderComps ((pathComponents s).foldl cleanStep [])

/-- Model of `PathBuf::join`: an absolute right side replaces the base. -/
def joinPath (base p : String) : String :=
  if startsWithSlash p then p
  else if endsWithSlash base then base ++ p
  else base ++ "/" ++ p

/-- Model of `Url::from_file_path` (Unix): fails unless the path is
absolute, otherwise builds a `file:` URL with the percent-encoded path. -/
def Url.fromFilePath (p : String) : Option Url :=
  if startsWithSlash p then some ⟨"file", encodePath p⟩ else none

/-- The crate's `Error` enum.  `IO` is spelt `ioErr` (Lean reserves `IO`);
its `io::Error` payload is an opaque tag, and the `which::Error` payload of
`NotFound` is dropped, as the crate never inspects either. -/
inductive Error where
  | FileToURI (path : String)
  | ioErr (e : Nat)
  | NotFound (exe : String)
deriving DecidableEq

/-- The observable part of a built `std::process::Command`. -/
structure Cmd where
  program : String
  args : List String
deriving DecidableEq

/-- The ambient process state read by the crate: environment variables, the
executable search path probed by `which::which`, and the current working
directory (an `Except` so that a failing read is representable). -/
structure Env where
  vars : String → Option String
  onPath : String → Bool
  cwd : Except Nat String

/-- The `PathOrURI` enum of `src/path_or_uri.rs`. -/
inductive PathOrURI where
  | Path (p : String)
  | URI (u : Url)
deriving DecidableEq

/-- `PathOrURI::is_path`. -/
def PathOrURI.is_path : PathOrURI → Bool
  | .Path _ => true
  | .URI _ => false

/-- `PathOrURI::is_uri`. -/
def PathOrURI.is_uri : PathOrURI → Bool
  | .Path _ => false
  | .URI _ => true

/-- `impl From<Url> for PathOrURI`: a `file`-scheme URL collapses to a path
built from `Url::path()`; any other URL is stored unchanged. -/
def PathOrURI.fromUrl (u : Url) : PathOrURI :=
  if u.scheme = "file" then .Path u.path else .URI u

/-- `impl FromStr for PathOrURI` (the error type is `Infallible`, so the
model is total): try a full URL parse, else keep the whole string as a path. -/
def PathOrURI.fromStr (s : String) : PathOrURI :=
  match parseUrl s with
  | some u => PathOrURI.fromUrl u
  | none => .Path s

/-- `impl Display for PathOrURI`: a path displays as itself, a URI as its
serialization. -/
def PathOrURI.toDisplay : PathOrURI → String
  | .Path p => p
  | .URI u => u.toString

/-- `PathOrURI::uri`: a held URI is returned as is; a path is joined onto
the current working directory, lexically cleaned, and converted to a `file:`
URL, with `current_dir` failure becoming an I/O error and conversion failure
becoming `FileToURI` carrying the original path. -/
def PathOrURI.uri (env : Env) : PathOrURI → Except Error Url
  | .URI u => .ok u
  | .Path p =>
    match env.cwd with
    | .error e => .error (.ioErr e)
    | .ok d =>
      match Url.fromFilePath (cleanPath (joinPath d p)) with
      | some u => .ok u
      | none => .error (.FileToURI p)

/-- `BROWSER_ENV` from `src/lib.rs`. -/
def BROWSER_ENV : String := "BROWSER"

/-- `EDITOR_ENV` from `src/lib.rs`. -/
def EDITOR_ENV : String := "EDITOR"

/-- `ensure_command`: the `which::which` existence check. -/
def ensure_command (env : Env) (cmd : String) : Except Error Unit :=
  if env.onPath cmd then .ok () else .error (.NotFound cmd)

/-- `open_with_command`: existence-check the program, then build the command
with the target's display string as the single argument. -/
def open_with_command (env : Env) (cmd : String) (target : PathOrURI) : Except Error Cmd :=
  match ensure_command env cmd with
  | .error e => .error e
  | .ok _ => .ok ⟨cmd, [target.toDisplay]⟩

/-- `linux::open`: `xdg-open` with the display string. -/
def linux_open (env : Env) (target : PathOrURI) : Except Error Cmd :=
  open_with_command env "xdg-open" target

/-- `macos::open`: `open` with the display string. -/
def macos_open (env : Env) (target : PathOrURI) : Except Error Cmd :=
  open_with_command env "open" target

/-- `windows::open`: existence-check `cmd`, then `cmd /c start` with the
serialized URI of the target (so a failing `uri()` propagates). -/
def windows_open (env : Env) (target : PathOrURI) : Except Error Cmd :=
  match ensure_command env "cmd" with
  | .error e => .error e
  | .ok _ =>
    match target.uri env with
    | .error e => .error e
    | .ok u => .ok ⟨"cmd", ["/c", "start", u.toString]⟩

/-- The compile-time `#[cfg(target_os = ...)]` choice of platform module. -/
inductive Platform where
  | linux
  | macos
  | windows
deriving DecidableEq

/-- The `sys_open` alias: the platform module's `open`. -/
def sys_open : Platform → Env → PathOrURI → Except Error Cmd
  | .linux => linux_open
  | .macos => macos_open
  | .windows => windows_open

/-- `open_env`: if the variable is set (any Unicode value, `if let Ok(cmd) =
std::env::var(env)`), open with that value; otherwise fall back to the
platform module. -/
def open_env (plat : Platform) (env : Env) (var : String) (target : PathOrURI) :
    Except Error Cmd :=
  match env.vars var with
  | some cmd => open_with_command env cmd target
  | none => sys_open plat env target

/-- The base entry point `open`, at the `PathOrURI` instantiation of its
`From`-bounded generic: it goes straight to the platform module. -/
def openTarget (plat : Platform) (env : Env) (target : PathOrURI) : Except Error Cmd :=
  sys_open plat env target

/-- `open_browser`: `open_env` on `BROWSER_ENV`. -/
def open_browser (plat : Platform) (env : Env) (target : PathOrURI) : Except Error Cmd :=
  open_env plat env BROWSER_ENV target

/-- `open_editor`: `open_env` on `EDITOR_ENV`. -/
def open_editor (plat : Platform) (env : Env) (target : PathOrURI) : Except Error Cmd :=
  open_env plat env EDITOR_ENV target

/-! Helper lemmas. -/

theorem string_data_append (a b : String) : (a ++ b).data = a.data ++ b.data := by
  cases a; cases b; rfl

theorem validScheme_notColon (l : List Char) (h : validScheme l = true) :
    ∀ c ∈ l, notColon c = true := by
  match l with
  | [] => simp [validScheme] at h
  | a :: rest =>
    rw [validScheme, Bool.and_eq_true, List.all_eq_true] at h
    intro c hc
    rcases List.mem_cons.mp hc with rfl | hc
    · rw [notColon, bne_iff_ne]
      intro he
      rw [he] at h
      exact absurd h.1 (by decide)
    · have hs := h.2 c hc
      rw [notColon, bne_iff_ne]
      intro he
      rw [he] at hs
      exact absurd hs (by decide)

theorem takeWhile_append_colon (l r : List Char) (h : ∀ c ∈ l, notColon c = true) :
    (l ++ ':' :: r).takeWhile notColon = l ∧ (l ++ ':' :: r).dropWhile notColon = ':' :: r := by
  have hcolon : notColon ':' = false := by decide
  induction l with
  | nil => simp [List.takeWhile_cons, List.dropWhile_cons, hcolon]
  | cons a l ih =>
    have ha : notColon a = true := h a (List.mem_cons_self a l)
    have ih' := ih (fun c hc => h c (List.mem_cons_of_mem a hc))
    simp [List.takeWhile_cons, List.dropWhile_cons, ha, ih'.1, ih'.2]

theorem parse_toString (u : Url) (h : u.wf) : parseUrl u.toString = some u := by
  obtain ⟨hv, hl⟩ := h
  rcases u with ⟨⟨sd⟩, ⟨hd⟩⟩
  have hdata : (Url.toString ⟨⟨sd⟩, ⟨hd⟩⟩).data = sd ++ ':' :: '/' :: '/' :: hd := by
    rw [Url.toString, string_data_append, string_data_append]
    show sd ++ [':', '/', '/'] ++ hd = sd ++ ':' :: '/' :: '/' :: hd
    rw [List.append_assoc]
    rfl
  have hnc := validScheme_notColon sd hv
  have hsplit := takeWhile_append_colon sd ('/' :: '/' :: hd) hnc
  rw [parseUrl, hdata, parseUrlChars, hsplit.1, hsplit.2]
  simp only [hv, if_true]
  simp only at hl
  rw [hl]

/-! Claim theorems. -/

/-- C1: constructing a `PathOrURI` from a parsed URL collapses a `file`
scheme into `Path` of the URL's path component (`is_uri` false), leaves any
other URL as `URI` unchanged (`is_path` false), and therefore never yields a
`URI` whose scheme is `file`. -/
theorem C1_fromUrl_collapse (u : Url) :
    (u.scheme = "file" →
      PathOrURI.fromUrl u = .Path u.path ∧ (PathOrURI.fromUrl u).is_uri = false) ∧
    (u.scheme ≠ "file" →
      PathOrURI.fromUrl u = .URI u ∧ (PathOrURI.fromUrl u).is_path = false) ∧
    (∀ v : Url, PathOrURI.fromUrl u = .URI v → v.scheme ≠ "file") := by
  refine ⟨fun h => ?_, fun h => ?_, fun v hv => ?_⟩
  · simp [PathOrURI.fromUrl, h, PathOrURI.is_uri]
  · simp [PathOrURI.fromUrl, h, PathOrURI.is_path]
  · by_cases h : u.scheme = "file"
    · simp [PathOrURI.fromUrl, h] at hv
    · rw [PathOrURI.fromUrl, if_neg h] at hv
      cases hv
      exact h

/-- C1 witness: the collapse at `file:///test/path` and the identity at
`https://example.com/x`. -/
theorem C1_fromUrl_collapse_witness :
    PathOrURI.fromUrl ⟨"file", "/test/path"⟩ = .Path "/test/path" ∧
    PathOrURI.fromUrl ⟨"https", "example.com/x"⟩ = .URI ⟨"https", "example.com/x"⟩ := by
  refine ⟨((C1_fromUrl_collapse ⟨"file", "/test/path"⟩).1 (by decide)).1.trans (by decide),
    ((C1_fromUrl_collapse ⟨"https", "example.com/x"⟩).2.1 (by decide)).1⟩

/-- C2: string parsing of a `PathOrURI` is total (the model function has no
error case, matching `Infallible`); a successful URL parse goes through the
URL constructor, a failed one stores the whole string as a path, and the
empty string yields the empty path. -/
theorem C2_fromStr_total (s : String) :
    (∀ u : Url, parseUrl s = some u → PathOrURI.fromStr s = PathOrURI.fromUrl u) ∧
    (parseUrl s = none → PathOrURI.fromStr s = .Path s) ∧
    PathOrURI.fromStr "" = .Path "" := by
  refine ⟨fun u hu => ?_, fun hn => ?_, by decide⟩
  · rw [PathOrURI.fromStr, hu]
  · rw [PathOrURI.fromStr, hn]

/-- C2 witness: a URI-shaped string goes through the URL constructor and a
plain path string is kept whole. -/
theorem C2_fromStr_total_witness :
    PathOrURI.fromStr "https://example.com/x" = .URI ⟨"https", "example.com/x"⟩ ∧
    PathOrURI.fromStr "/test/path" = .Path "/test/path" := by
  refine ⟨((C2_fromStr_total "https://example.com/x").1 ⟨"https", "example.com/x"⟩
      (by decide)).trans (by decide),
    (C2_fromStr_total "/test/path").2.1 (by decide)⟩

/-- C10: the file-scheme collapse stores the percent-encoded path component
verbatim, and the path to file-URI round trip is not the identity: the
absolute path `/a b` converts to `file:///a%20b`, which collapses back to
the different path `/a%20b`. -/
theorem C10_percent_encoding_not_roundtrip :
    (∀ u : Url, u.scheme = "file" → PathOrURI.fromUrl u = .Path u.path) ∧
    (PathOrURI.Path "/a b").uri ⟨fun _ => none, fun _ => false, .ok "/home/u"⟩ =
      .ok ⟨"file", "/a%20b"⟩ ∧
    PathOrURI.fromUrl ⟨"file", "/a%20b"⟩ = .Path "/a%20b" ∧
    PathOrURI.Path "/a%20b" ≠ PathOrURI.Path "/a b" := by
  refine ⟨fun u h => ?_, rfl, by decide, by decide⟩
  rw [PathOrURI.fromUrl, if_pos h]

/-- C10 witness: the verbatim-collapse conjunct at a concrete `file` URL. -/
theorem C10_percent_encoding_not_roundtrip_witness :
    PathOrURI.fromUrl ⟨"file", "/q"⟩ = .Path "/q" :=
  (C10_percent_encoding_not_roundtrip.1 ⟨"file", "/q"⟩ rfl).trans (by decide)

/-- C3: `uri()` returns a held URI unchanged and never fails; on a path it
joins onto the working directory, lexically cleans, and converts to a
`file:` URI, failing with an I/O error when the working directory read
fails and with `FileToURI` carrying the offending path when the cleaned
path cannot be represented; `./a/../b.txt` under `/home/u` becomes
`file:///home/u/b.txt`. -/
theorem C3_uri_behavior :
    (∀ (env : Env) (u : Url), (PathOrURI.URI u).uri env = .ok u) ∧
    (∀ (env : Env) (p : String) (e : Nat),
      env.cwd = .error e → (PathOrURI.Path p).uri env = .error (.ioErr e)) ∧
    (∀ (env : Env) (p d : String),
      env.cwd = .ok d → startsWithSlash (cleanPath (joinPath d p)) = false →
      (PathOrURI.Path p).uri env = .error (.FileToURI p)) ∧
    (∀ env : Env, env.cwd = .ok "/home/u" →
      (PathOrURI.Path "./a/../b.txt").uri env = .ok ⟨"file", "/home/u/b.txt"⟩ ∧
      Url.toString ⟨"file", "/home/u/b.txt"⟩ = "file:///home/u/b.txt") := by
  refine ⟨fun env u => rfl, fun env p e h => ?_, fun env p d h hs => ?_, fun env h => ?_⟩
  · rw [PathOrURI.uri, h]
  · rw [PathOrURI.uri, h]
    simp [Url.fromFilePath, hs]
  · refine ⟨?_, by decide⟩
    rw [PathOrURI.uri, h]
    rfl

/-- C3 witness: all four conjuncts at concrete environments and targets. -/
theorem C3_uri_behavior_witness :
    (PathOrURI.URI ⟨"https", "example.com/x"⟩).uri
        ⟨fun _ => none, fun _ => false, .ok "/"⟩ = .ok ⟨"https", "example.com/x"⟩ ∧
    (PathOrURI.Path "x").uri ⟨fun _ => none, fun _ => false, .error 3⟩ =
      .error (.ioErr 3) ∧
    (PathOrURI.Path "x").uri ⟨fun _ => none, fun _ => false, .ok "rel"⟩ =
      .error (.FileToURI "x") ∧
    (PathOrURI.Path "./a/../b.txt").uri ⟨fun _ => none, fun _ => false, .ok "/home/u"⟩ =
      .ok ⟨"file", "/home/u/b.txt"⟩ :=
  ⟨C3_uri_behavior.1 _ _, C3_uri_behavior.2.1 _ "x" 3 rfl,
    C3_uri_behavior.2.2.1 _ "x" "rel" rfl (by decide),
    (C3_uri_behavior.2.2.2 _ rfl).1⟩

/-- C4: with the override variable set to any value `cmd`, resolution
existence-checks `cmd` first, returns `{cmd, [display]}` with exactly one
argument on success, and `NotFound cmd` on failure, never falling back to
the platform path. -/
theorem C4_override_env (plat : Platform) (env : Env) (var cmd : String) (t : PathOrURI)
    (h : env.vars var = some cmd) :
    (env.onPath cmd = true → open_env plat env var t = .ok ⟨cmd, [t.toDisplay]⟩) ∧
    (env.onPath cmd = false → open_env plat env var t = .error (.NotFound cmd)) := by
  constructor <;> intro hp <;>
    simp [open_env, h, open_with_command, ensure_command, hp]

/-- C4 witness: the spec's concrete scenario (`firefox` on the path) and a
missing override program. -/
theorem C4_override_env_witness :
    open_env .linux
        ⟨fun v => if v = "BROWSER" then some "firefox" else none,
          fun c => c == "firefox", .ok "/"⟩
        "BROWSER" (.Path "/tmp/report.pdf") = .ok ⟨"firefox", ["/tmp/report.pdf"]⟩ ∧
    open_env .linux
        ⟨fun v => if v = "BROWSER" then some "missing" else none,
          fun c => c == "xdg-open", .ok "/"⟩
        "BROWSER" (.Path "/tmp/report.pdf") = .error (.NotFound "missing") := by
  constructor
  · exact ((C4_override_env .linux _ "BROWSER" "firefox" _ (by decide)).1 (by decide)).trans rfl
  · exact (C4_override_env .linux _ "BROWSER" "missing" _ (by decide)).2 (by decide)

/-- C5 counterexample: with the override variable set to the empty string,
`open_env` does not delegate to the platform adapter (which would yield the
`xdg-open` command here) but uses the empty string as the program name and
fails its existence check. -/
theorem C5_empty_override_counterexample :
    open_env .linux
        ⟨fun v => if v = "BROWSER" then some "" else none, fun c => c == "xdg-open", .ok "/"⟩
        "BROWSER" (.Path "/tmp/x") = .error (.NotFound "") ∧
    sys_open .linux
        ⟨fun v => if v = "BROWSER" then some "" else none, fun c => c == "xdg-open", .ok "/"⟩
        (.Path "/tmp/x") = .ok ⟨"xdg-open", ["/tmp/x"]⟩ ∧
    open_env .linux
        ⟨fun v => if v = "BROWSER" then some "" else none, fun c => c == "xdg-open", .ok "/"⟩
        "BROWSER" (.Path "/tmp/x") ≠
      sys_open .linux
        ⟨fun v => if v = "BROWSER" then some "" else none, fun c => c == "xdg-open", .ok "/"⟩
        (.Path "/tmp/x") := by
  refine ⟨rfl, rfl, fun hcontra => ?_⟩
  rw [show open_env .linux
      ⟨fun v => if v = "BROWSER" then some "" else none, fun c => c == "xdg-open", .ok "/"⟩
      "BROWSER" (.Path "/tmp/x") = .error (.NotFound "") from rfl] at hcontra
  rw [show sys_open .linux
      ⟨fun v => if v = "BROWSER" then some "" else none, fun c => c == "xdg-open", .ok "/"⟩
      (.Path "/tmp/x") = .ok ⟨"xdg-open", ["/tmp/x"]⟩ from rfl] at hcontra
  cases hcontra

/-- C5 (amended): resolution delegates to the platform adapter exactly when
the override variable is unset; when it is set — even to the empty string —
its value is used as the program name for the override path. -/
theorem C5_unset_delegates (plat : Platform) (env : Env) (var : String) (t : PathOrURI) :
    (env.vars var = none → open_env plat env var t = sys_open plat env t) ∧
    (∀ cmd : String, env.vars var = some cmd →
      open_env plat env var t = open_with_command env cmd t) := by
  refine ⟨fun h => ?_, fun cmd h => ?_⟩ <;> rw [open_env, h]

/-- C5 witness: delegation with the variable unset, and the empty string
used as program name when set-but-empty. -/
theorem C5_unset_delegates_witness :
    open_env .linux ⟨fun _ => none, fun c => c == "xdg-open", .ok "/"⟩ "BROWSER" (.Path "/tmp/x")
      = sys_open .linux ⟨fun _ => none, fun c => c == "xdg-open", .ok "/"⟩ (.Path "/tmp/x") ∧
    open_env .linux
        ⟨fun v => if v = "BROWSER" then some "" else none, fun c => c == "xdg-open", .ok "/"⟩
        "BROWSER" (.Path "/tmp/x")
      = open_with_command
          ⟨fun v => if v = "BROWSER" then some "" else none, fun c => c == "xdg-open", .ok "/"⟩
          "" (.Path "/tmp/x") :=
  ⟨(C5_unset_delegates .linux _ "BROWSER" _).1 rfl,
    (C5_unset_delegates .linux _ "BROWSER" _).2 "" (by decide)⟩

/-- C6: when the target's URI conversion fails, Windows delegation
propagates that error (once the shell passes its existence check) and in no
case returns a command descriptor — there is no raw-path fallback. -/
theorem C6_windows_uri_failure (env : Env) (t : PathOrURI) (e : Error)
    (h : t.uri env = .error e) :
    (env.onPath "cmd" = true → windows_open env t = .error e) ∧
    (∀ c : Cmd, windows_open env t ≠ .ok c) := by
  constructor
  · intro hp
    rw [windows_open, ensure_command, hp, if_pos rfl, h]
  · intro c
    rw [windows_open, ensure_command]
    cases hp : env.onPath "cmd"
    · simp
    · rw [if_pos rfl, h]
      simp

/-- C6 witness: a path whose URI conversion fails (`FileToURI`) makes
Windows delegation fail with that same error. -/
theorem C6_windows_uri_failure_witness :
    windows_open ⟨fun _ => none, fun c => c == "cmd", .ok "rel"⟩ (.Path "x") =
      .error (.FileToURI "x") :=
  (C6_windows_uri_failure ⟨fun _ => none, fun c => c == "cmd", .ok "rel"⟩
    (.Path "x") (.FileToURI "x") rfl).1 (by decide)

/-- C7: each platform adapter existence-checks its fixed program and on
success returns exactly `xdg-open [display]` (Unix-like), `open [display]`
(macOS), and `cmd /c start [serialized URI]` (Windows, which uses the URI
form); the check failure is `NotFound` of that fixed program. -/
theorem C7_platform_adapters (env : Env) (t : PathOrURI) :
    (env.onPath "xdg-open" = true → linux_open env t = .ok ⟨"xdg-open", [t.toDisplay]⟩) ∧
    (env.onPath "xdg-open" = false → linux_open env t = .error (.NotFound "xdg-open")) ∧
    (env.onPath "open" = true → macos_open env t = .ok ⟨"open", [t.toDisplay]⟩) ∧
    (env.onPath "open" = false → macos_open env t = .error (.NotFound "open")) ∧
    (env.onPath "cmd" = false → windows_open env t = .error (.NotFound "cmd")) ∧
    (∀ u : Url, env.onPath "cmd" = true → t.uri env = .ok u →
      windows_open env t = .ok ⟨"cmd", ["/c", "start", u.toString]⟩) := by
  refine ⟨fun h => ?_, fun h => ?_, fun h => ?_, fun h => ?_, fun h => ?_, fun u h hu => ?_⟩
  · rw [linux_open, open_with_command, ensure_command, h, if_pos rfl]
  · rw [linux_open, open_with_command, ensure_command, h]
    rfl
  · rw [macos_open, open_with_command, ensure_command, h, if_pos rfl]
  · rw [macos_open, open_with_command, ensure_command, h]
    rfl
  · rw [windows_open, ensure_command, h]
    rfl
  · rw [windows_open, ensure_command, h, if_pos rfl, hu]

/-- C7 witness: the spec's concrete scenario — `https://example.com/x`
parsed, `xdg-open` present — yields `xdg-open ["https://example.com/x"]`;
the same target on the Windows adapter yields
`cmd ["/c", "start", "https://example.com/x"]`. -/
theorem C7_platform_adapters_witness :
    linux_open ⟨fun _ => none, fun _ => true, .ok "/"⟩
        (PathOrURI.fromStr "https://example.com/x") =
      .ok ⟨"xdg-open", ["https://example.com/x"]⟩ ∧
    windows_open ⟨fun _ => none, fun _ => true, .ok "/"⟩
        (PathOrURI.fromStr "https://example.com/x") =
      .ok ⟨"cmd", ["/c", "start", "https://example.com/x"]⟩ := by
  constructor
  · exact ((C7_platform_adapters ⟨fun _ => none, fun _ => true, .ok "/"⟩
      (PathOrURI.fromStr "https://example.com/x")).1 rfl).trans rfl
  · exact ((C7_platform_adapters ⟨fun _ => none, fun _ => true, .ok "/"⟩
      (PathOrURI.fromStr "https://example.com/x")).2.2.2.2.2
      ⟨"https", "example.com/x"⟩ rfl rfl).trans rfl

/-- C8: the display string of a `RemoteURI` target round-trips through
string parsing back to the same `RemoteURI`; the hypotheses say the held
URL is in the parser's image (as every `RemoteURI` built by the crate is)
and respects the data-model invariant of not having scheme `file`. -/
theorem C8_display_parse_roundtrip (u : Url) (hwf : u.wf) (hs : u.scheme ≠ "file") :
    PathOrURI.fromStr ((PathOrURI.URI u).toDisplay) = .URI u := by
  simp only [PathOrURI.toDisplay, PathOrURI.fromStr, parse_toString u hwf,
    PathOrURI.fromUrl, if_neg hs]

/-- C8 witness: the round trip at `https://example.com/x`. -/
theorem C8_display_parse_roundtrip_witness :
    PathOrURI.fromStr ((PathOrURI.URI ⟨"https", "example.com/x"⟩).toDisplay) =
      .URI ⟨"https", "example.com/x"⟩ :=
  C8_display_parse_roundtrip ⟨"https", "example.com/x"⟩ (by decide) (by decide)

/-- C9: the base entry point `open` never reads environment variables: its
result is unchanged under any modification of the variable map — in
particular of `BROWSER` and `EDITOR` — as long as the search path and the
working directory are the same. -/
theorem C9_open_ignores_env_vars (plat : Platform) (e1 e2 : Env) (t : PathOrURI)
    (hpath : e1.onPath = e2.onPath) (hcwd : e1.cwd = e2.cwd)
    (hvars : ∀ k, k ≠ BROWSER_ENV → k ≠ EDITOR_ENV → e1.vars k = e2.vars k) :
    openTarget plat e1 t = openTarget plat e2 t := by
  rcases e1 with ⟨v1, p1, c1⟩
  rcases e2 with ⟨v2, p2, c2⟩
  simp only at hpath hcwd
  subst hpath
  subst hcwd
  cases plat <;> cases t <;>
    rfl

/-- C9 witness: two environments that differ exactly in the `BROWSER`
variable give the same `open` result. -/
theorem C9_open_ignores_env_vars_witness :
    openTarget .linux
        ⟨fun v => if v = "BROWSER" then some "firefox" else none,
          fun c => c == "xdg-open", .ok "/"⟩ (.Path "/tmp/x")
      = openTarget .linux ⟨fun _ => none, fun c => c == "xdg-open", .ok "/"⟩ (.Path "/tmp/x") :=
  C9_open_ignores_env_vars .linux _ _ _ rfl rfl
    (fun k h1 _ => by
      rw [BROWSER_ENV] at h1
      simp [h1])

end OpenCmd
